import Mathlib

/-!
# A verification development for the PyChip8 interpreter

Shallow embedding of the CHIP-8 interpreter (`chip8/Chip8CPU.py`,
`Chip8Display.py`, `chip8/Chip8Debugger.py`, `chip8/config.py`) and proofs
about its opcode semantics, dispatch, memory loading, drawing and the
debugger's breakpoint commands.

Conventions of the embedding:
* Python byte lists (`memory`, register file `v`, the call `stack`) become
  total functions from `Nat`; an assignment `xs[i] = val` becomes `store`.
* The program counter is an `Int`, because several handlers set
  `pc = target - 2` (which may be transiently negative in Python) and the
  dispatcher then adds 2 back.
* A Python method that can raise becomes a function into `CpuResult`, whose
  `err` constructor carries the machine state at the moment the exception
  is raised (mutations made before the raise are kept, as in Python).
* The pygame display surface is a function `Nat → Nat → Bool` over *scaled*
  surface coordinates (`True` = `MAIN_COLOR`, `False` = `BG_COLOR`);
  `pygame.draw.rect` becomes `fill_rect` and `Surface.get_at` becomes
  pointwise application.  The scale is 10, as in `Chip8Display.__init__`.
* The pygame event queue and `random.randint` are an explicit `Env`.
-/

/-! ## Constants (`chip8/config.py`) -/

def STACK_SIZE : Nat := 16
def MEMORY_SIZE : Nat := 4096
def NUM_REGISTERS : Nat := 16
def START_ADDR : Nat := 0x200
def DISPLAY_WIDTH : Nat := 64
def DISPLAY_HEIGHT : Nat := 32
def FONT_ADDR_START : Nat := 0x0

/-- `config.KEY_MAPPINGS`: logical CHIP-8 key (0x0..0xF) to pygame key
constant (`pygame.K_1 = 49`, …, `pygame.K_v = 118`), written as the dict
lookup.  A key outside 0x0..0xF is a Python `KeyError`, i.e. `none`. -/
def KEY_MAPPINGS (k : Nat) : Option Nat :=
  if k = 0x1 then some 49        -- pygame.K_1
  else if k = 0x2 then some 50   -- pygame.K_2
  else if k = 0x3 then some 51   -- pygame.K_3
  else if k = 0xC then some 52   -- pygame.K_4
  else if k = 0x4 then some 113  -- pygame.K_q
  else if k = 0x5 then some 119  -- pygame.K_w
  else if k = 0x6 then some 101  -- pygame.K_e
  else if k = 0xD then some 114  -- pygame.K_r
  else if k = 0x7 then some 97   -- pygame.K_a
  else if k = 0x8 then some 115  -- pygame.K_s
  else if k = 0x9 then some 100  -- pygame.K_d
  else if k = 0xE then some 102  -- pygame.K_f
  else if k = 0xA then some 122  -- pygame.K_z
  else if k = 0x0 then some 120  -- pygame.K_x
  else if k = 0xB then some 99   -- pygame.K_c
  else if k = 0xF then some 118  -- pygame.K_v
  else none

/-- `KEY_MAPPINGS.values()` in dict insertion order. -/
def KEY_MAPPINGS_values : List Nat :=
  [49, 50, 51, 52, 113, 119, 101, 114, 97, 115, 100, 102, 122, 120, 99, 118]

/-! ## Generic array-assignment helper -/

/-- `f` with index `idx` overwritten by `val` (Python `xs[idx] = val`). -/
def store {α : Type} (f : Nat → α) (idx : Nat) (val : α) : Nat → α :=
  fun j => if j = idx then val else f j

/-! ## Display (`Chip8Display.py`) -/

/-- The pygame window of `Chip8Display`: logical `width`/`height`, the
pixel `scale` (default 10), and the scaled surface, `surface a b = true`
iff surface pixel `(a, b)` holds `MAIN_COLOR`. -/
structure Chip8Display where
  width : Nat
  height : Nat
  scale : Nat
  surface : Nat → Nat → Bool

/-- `pygame.draw.rect(surface, color, (left, top, w, h))` /
`surface.fill`: set every surface pixel of the rectangle to `color`. -/
def fill_rect (surf : Nat → Nat → Bool) (left top w h : Nat) (color : Bool) :
    Nat → Nat → Bool :=
  fun a b =>
    if left ≤ a ∧ a < left + w ∧ top ≤ b ∧ b < top + h then color else surf a b

/-- `Chip8Display.clear_display`: fill the whole surface with `BG_COLOR`. -/
def clear_display (d : Chip8Display) : Chip8Display :=
  { d with surface := fun _ _ => false }

/-- `Chip8Display.is_drawn_pixel_present`: `surface.get_at((x_pos, y_pos))
== MAIN_COLOR`.  Note the source reads the *scaled* surface at the
*unscaled* coordinates. -/
def is_drawn_pixel_present (d : Chip8Display) (x_pos y_pos : Nat) : Bool :=
  d.surface x_pos y_pos

/-- `Chip8Display.is_bit_set`: bit `index` of `byte`, index 0 the most
significant.  (The source's `ValueError` guard cannot fire: every call
site passes `index ∈ range(8)`.) -/
def is_bit_set (byte index : Nat) : Bool :=
  byte &&& (1 <<< (7 - index)) != 0

/-- `Chip8Display.draw_pixel`: read the overwrite flag via
`is_drawn_pixel_present`, then draw the `scale × scale` rectangle of cell
`(x_pos, y_pos)` in `MAIN_COLOR` (if not overwriting) or `BG_COLOR` (if
overwriting); returns the flag. -/
def draw_pixel (d : Chip8Display) (x_pos y_pos : Nat) : Bool × Chip8Display :=
  let overwrite := is_drawn_pixel_present d x_pos y_pos
  (overwrite,
    { d with
        surface :=
          fill_rect d.surface (x_pos * d.scale) (y_pos * d.scale)
            d.scale d.scale (!overwrite) })

/-- `Chip8Display.draw_byte`: for each of the 8 bits (most significant
first), if set, wrap the column modulo `width` and the row modulo
`height`, draw the pixel, and OR the per-pixel overwrite flags. -/
def draw_byte (d : Chip8Display) (x_pos y_pos byte : Nat) :
    Bool × Chip8Display :=
  (List.range 8).foldl
    (fun acc i =>
      if is_bit_set byte i then
        let new_x_pos := (x_pos + i) % acc.2.width
        let new_y_pos := y_pos % acc.2.height
        let r := draw_pixel acc.2 new_x_pos new_y_pos
        (acc.1 || r.1, r.2)
      else acc)
    (false, d)

/-! ## Machine state and environment (`chip8/Chip8CPU.py`) -/

/-- The CPU state: `memory` (4096 bytes), register file `v` (16 bytes),
address register `i`, stack pointer `sp`, program counter `pc`, the call
`stack` (16 slots), the `delay`/`sound` timers, and the display. -/
structure Chip8State where
  memory : Nat → Nat
  v : Nat → Nat
  i : Nat
  sp : Nat
  pc : Int
  stack : Nat → Int
  delay : Nat
  sound : Nat
  display : Chip8Display

/-- A pygame event as seen by the interpreter's event loops. -/
inductive PygameEvent where
  | quit
  | keydown (key : Nat)
  | other
deriving DecidableEq

/-- The interpreter's external inputs for one cycle: the value produced by
`random.randint(0, 255)`, the `pygame.key.get_pressed()` snapshot (indexed
by pygame key constant), and the pending `pygame.event.get()` queue. -/
structure Env where
  rand : Nat
  keysPressed : Nat → Bool
  events : List PygameEvent

/-- Exceptions the modelled code can raise during one cycle. -/
inductive Chip8Error where
  | invalidLookup (key : Nat)   -- `InvalidLookup` from `validate_lookup`
  | keyError (key : Nat)        -- Python `KeyError` on a dict lookup
  | systemExit                  -- `pygame.quit(); sys.exit()`
  | blockedForever              -- the event-wait loop never returns
deriving DecidableEq

/-- Outcome of running (part of) a cycle: `ok` the new state, or `err`
an exception together with the state at the moment it was raised. -/
inductive CpuResult where
  | ok (s : Chip8State)
  | err (e : Chip8Error) (s : Chip8State)

/-- The state held in a `CpuResult` (for stating evaluation facts). -/
def result_state : CpuResult → Chip8State
  | .ok s => s
  | .err _ s => s

/-- `Chip8CPU.get_opcode_nibble_dict`, as a structure. -/
structure OpcodeNibbles where
  all : Nat
  first_nibble : Nat
  second_nibble : Nat
  third_nibble : Nat
  fourth_nibble : Nat
  last_three_bits : Nat
  last_byte : Nat

/-- `get_opcode_nibble_dict` on the two fetched bytes `b0`, `b1`. -/
def get_opcode_nibble_dict (b0 b1 : Nat) : OpcodeNibbles :=
  let combined_opcode := (b0 <<< 8 ||| b1) &&& 0xFFFF
  { all := combined_opcode
    first_nibble := (combined_opcode &&& 0xF000) >>> 12
    second_nibble := (combined_opcode &&& 0x0F00) >>> 8
    third_nibble := (combined_opcode &&& 0x00F0) >>> 4
    fourth_nibble := combined_opcode &&& 0x000F
    last_three_bits := combined_opcode &&& 0x0FFF
    last_byte := combined_opcode &&& 0x00FF }

/-- Uniform type of the opcode handler methods. -/
def Handler : Type :=
  OpcodeNibbles → Chip8State → Env → CpuResult

/-! ## Opcode handler methods -/

/-- Opcode 00E0 - CLS. -/
def clear_screen : Handler := fun _nibs s _env =>
  .ok { s with display := clear_display s.display }

/-- Opcode 00EE - RET: pop the stack into `pc`, zero the slot, decrement
`sp`.  (Modelled runs keep `sp ≥ 1` here; the legacy code does not guard
underflow.) -/
def return_from_subrtn : Handler := fun _nibs s _env =>
  let s1 := { s with pc := s.stack s.sp }
  let s2 := { s1 with stack := store s1.stack s1.sp 0 }
  .ok { s2 with sp := s2.sp - 1 }

/-- Opcode 1nnn - JP addr (`pc = nnn; pc -= 2`). -/
def jump_addr : Handler := fun nibs s _env =>
  let s1 := { s with pc := (nibs.last_three_bits : Int) }
  .ok { s1 with pc := s1.pc - 2 }

/-- Opcode 2nnn - CALL addr. -/
def call_addr : Handler := fun nibs s _env =>
  let s1 := { s with sp := s.sp + 1 }
  let s2 := { s1 with stack := store s1.stack s1.sp s1.pc }
  let s3 := { s2 with pc := (nibs.last_three_bits : Int) }
  .ok { s3 with pc := s3.pc - 2 }

/-- Opcode 3xkk - SE Vx, byte. -/
def skip_reg_eq_byte : Handler := fun nibs s _env =>
  if s.v nibs.second_nibble = nibs.last_byte then
    .ok { s with pc := s.pc + 2 }
  else .ok s

/-- Opcode 4xkk - SNE Vx, byte. -/
def skip_reg_neq_byte : Handler := fun nibs s _env =>
  if s.v nibs.second_nibble ≠ nibs.last_byte then
    .ok { s with pc := s.pc + 2 }
  else .ok s

/-- Opcode 5xy0 - SE Vx, Vy. -/
def skip_reg_eq_reg : Handler := fun nibs s _env =>
  if s.v nibs.second_nibble = s.v nibs.third_nibble then
    .ok { s with pc := s.pc + 2 }
  else .ok s

/-- Opcode 6xkk - LD Vx, byte. -/
def ld_to_reg : Handler := fun nibs s _env =>
  .ok { s with v := store s.v nibs.second_nibble nibs.last_byte }

/-- Opcode 7xkk - ADD Vx, byte (wrap by conditional `-= 256`). -/
def add_byte_to_reg : Handler := fun nibs s _env =>
  let second_nibble := s.v nibs.second_nibble
  let last_byte := nibs.last_byte
  let temp := second_nibble + last_byte
  let temp := if temp > 255 then temp - 256 else temp
  .ok { s with v := store s.v nibs.second_nibble temp }

/-- Opcode 8xy0 - LD Vx, Vy. -/
def ld_reg_to_reg : Handler := fun nibs s _env =>
  .ok { s with v := store s.v nibs.second_nibble (s.v nibs.third_nibble) }

/-- Opcode 8xy1 - OR Vx, Vy. -/
def or_regs : Handler := fun nibs s _env =>
  .ok { s with
    v := store s.v nibs.second_nibble
      (s.v nibs.second_nibble ||| s.v nibs.third_nibble) }

/-- Opcode 8xy2 - AND Vx, Vy. -/
def and_regs : Handler := fun nibs s _env =>
  .ok { s with
    v := store s.v nibs.second_nibble
      (s.v nibs.second_nibble &&& s.v nibs.third_nibble) }

/-- Opcode 8xy3 - XOR Vx, Vy. -/
def xor_regs : Handler := fun nibs s _env =>
  .ok { s with
    v := store s.v nibs.second_nibble
      (s.v nibs.second_nibble ^^^ s.v nibs.third_nibble) }

/-- Opcode 8xy4 - ADD Vx, Vy with carry flag. -/
def add_regs : Handler := fun nibs s _env =>
  let second_nibble := s.v nibs.second_nibble
  let third_nibble := s.v nibs.third_nibble
  let temp := second_nibble + third_nibble
  let carry := temp > 255
  let temp := if temp > 255 then temp - 256 else temp
  let temp := temp &&& 0xFF
  let v1 := store s.v nibs.second_nibble temp
  .ok { s with v := store v1 0xF (if carry then 1 else 0) }

/-- Opcode 8xy5 - SUB Vx, Vy: the source flags a borrow (and computes
`256 + Vx - Vy`) unless `Vx > Vy` strictly, so `Vx = Vy` takes the borrow
branch. -/
def sub_regs : Handler := fun nibs s _env =>
  let second_nibble := s.v nibs.second_nibble
  let third_nibble := s.v nibs.third_nibble
  let borrow := ¬ (second_nibble > third_nibble)
  let second_nibble :=
    if second_nibble > third_nibble then second_nibble - third_nibble
    else 256 + second_nibble - third_nibble
  let second_nibble := second_nibble &&& 0xFF
  let v1 := store s.v nibs.second_nibble second_nibble
  .ok { s with v := store v1 0xF (if borrow then 0 else 1) }

/-- Opcode 8xy6 - SHR Vx: `VF` is written first, then the shift reads the
(possibly updated) register, as in the source. -/
def right_shift_reg : Handler := fun nibs s _env =>
  let v1 := store s.v 0xF (s.v nibs.second_nibble &&& 0x1)
  let v2 := store v1 nibs.second_nibble (v1 nibs.second_nibble >>> 1)
  let v3 := store v2 nibs.second_nibble (v2 nibs.second_nibble &&& 0xFF)
  .ok { s with v := v3 }

/-- Opcode 8xy7 - SUBN Vx, Vy (same strict-inequality borrow rule). -/
def reverse_sub_regs : Handler := fun nibs s _env =>
  let second_nibble := s.v nibs.second_nibble
  let third_nibble := s.v nibs.third_nibble
  let borrow := ¬ (third_nibble > second_nibble)
  let third_nibble :=
    if third_nibble > second_nibble then third_nibble - second_nibble
    else 256 + third_nibble - second_nibble
  let third_nibble := third_nibble &&& 0xFF
  let v1 := store s.v nibs.second_nibble third_nibble
  .ok { s with v := store v1 0xF (if borrow then 0 else 1) }

/-- Opcode 8xyE - SHL Vx. -/
def left_shift_reg : Handler := fun nibs s _env =>
  let v1 := store s.v 0xF ((s.v nibs.second_nibble &&& 0x80) >>> 7)
  let v2 := store v1 nibs.second_nibble (v1 nibs.second_nibble <<< 1)
  let v3 := store v2 nibs.second_nibble (v2 nibs.second_nibble &&& 0xFF)
  .ok { s with v := v3 }

/-- Opcode 9xy0 - SNE Vx, Vy. -/
def skip_reg_neq_reg : Handler := fun nibs s _env =>
  if s.v nibs.second_nibble ≠ s.v nibs.third_nibble then
    .ok { s with pc := s.pc + 2 }
  else .ok s

/-- Opcode Annn - LD I, addr. -/
def ld_i : Handler := fun nibs s _env =>
  .ok { s with i := nibs.last_three_bits }

/-- Opcode Bnnn - JP V0, addr.  NOTE: this method exists in the source but
`opcode_first_nibble_lookup[0xB]` is `jump_addr`, so it is never
dispatched. -/
def jmp_reg0_with_byte : Handler := fun nibs s _env =>
  let s1 := { s with pc := ((nibs.last_three_bits + s.v 0x0) &&& 0xFFFF : Nat) }
  .ok { s1 with pc := s1.pc - 2 }

/-- Opcode Cxkk - RND Vx, byte (`random.randint(0, 255)` is `env.rand`). -/
def store_rnd_anded_byte_to_reg : Handler := fun nibs s env =>
  .ok { s with v := store s.v nibs.second_nibble (env.rand &&& nibs.last_byte) }

/-- Opcode Dxyn - DRW Vx, Vy, nibble: draw `n` sprite rows from
`memory[I..I+n-1]`, row `i` via `draw_byte(x, y + i, byte)`, then set `VF`
from the OR of the per-row overwrite flags. -/
def draw_bytes : Handler := fun nibs s _env =>
  let num_bytes_to_draw := nibs.fourth_nibble
  let x_pos := s.v nibs.second_nibble
  let y_pos := s.v nibs.third_nibble
  let r :=
    (List.range num_bytes_to_draw).foldl
      (fun acc i =>
        let byte_to_draw := s.memory (s.i + i)
        let dr := draw_byte acc.2 x_pos (y_pos + i) byte_to_draw
        (acc.1 || dr.1, dr.2))
      (false, s.display)
  .ok { s with
          display := r.2
          v := store s.v 0xF (if r.1 then 1 else 0) }

/-- `Chip8CPU.is_key_pressed`: `pygame.key.get_pressed()[KEY_MAPPINGS[key]]`;
a key with no mapping is a Python `KeyError`. -/
def is_key_pressed (env : Env) (key : Nat) : Option Bool :=
  match KEY_MAPPINGS key with
  | none => none
  | some host_key => some (env.keysPressed host_key)

/-- Opcode Ex9E - SKP Vx. -/
def skip_on_keypress : Handler := fun nibs s env =>
  match is_key_pressed env (s.v nibs.second_nibble) with
  | none => .err (.keyError (s.v nibs.second_nibble)) s
  | some true => .ok { s with pc := s.pc + 2 }
  | some false => .ok s

/-- Opcode ExA1 - SKNP Vx. -/
def skip_on_not_keypress : Handler := fun nibs s env =>
  match is_key_pressed env (s.v nibs.second_nibble) with
  | none => .err (.keyError (s.v nibs.second_nibble)) s
  | some true => .ok s
  | some false => .ok { s with pc := s.pc + 2 }

/-- Opcode Fx07 - LD Vx, DT. -/
def ld_reg_with_dly_timer : Handler := fun nibs s _env =>
  .ok { s with v := store s.v nibs.second_nibble s.delay }

/-- Outcome of `Chip8CPU.wait_and_get_key`. -/
inductive KeyWaitResult where
  | got (key : Nat)   -- `return event.key` (the pygame key constant!)
  | quitExit          -- a QUIT event: `pygame.quit(); sys.exit()`
  | blocked           -- queue exhausted: the `while True` loop never returns
deriving DecidableEq

/-- `Chip8CPU.wait_and_get_key`: scan the event queue for the first
KEYDOWN whose key is in `KEY_MAPPINGS.values()`, returning `event.key`
itself (the host pygame key constant, not the logical index). -/
def wait_and_get_key : List PygameEvent → KeyWaitResult
  | [] => .blocked
  | .quit :: _ => .quitExit
  | .keydown key :: rest =>
      if key ∈ KEY_MAPPINGS_values then .got key else wait_and_get_key rest
  | .other :: rest => wait_and_get_key rest

/-- Opcode Fx0A - LD Vx, K: store the value returned by
`wait_and_get_key` into `Vx`. -/
def wait_for_input : Handler := fun nibs s env =>
  match wait_and_get_key env.events with
  | .got key_pressed =>
      .ok { s with v := store s.v nibs.second_nibble key_pressed }
  | .quitExit => .err .systemExit s
  | .blocked => .err .blockedForever s

/-- Opcode Fx15 - LD DT, Vx. -/
def ld_delay_timer_with_reg : Handler := fun nibs s _env =>
  .ok { s with delay := s.v nibs.second_nibble }

/-- Opcode Fx18 - LD ST, Vx. -/
def ld_sound_timer_with_reg : Handler := fun nibs s _env =>
  .ok { s with sound := s.v nibs.second_nibble }

/-- Opcode Fx1E - ADD I, Vx. -/
def add_i_with_reg : Handler := fun nibs s _env =>
  .ok { s with i := (s.i + s.v nibs.second_nibble) &&& 0xFFFF }

/-- Opcode Fx29 - LD F, Vx.  The source computes
`sprite_char_addr = FONT_ADDR_START + sprite_char * 5` into a local and
never assigns it to `self.registers["i"]`: the state is returned
unchanged, exactly as the Python method leaves it. -/
def ld_i_font_sprite : Handler := fun nibs s _env =>
  let sprite_char := s.v nibs.second_nibble
  let _sprite_char_addr := FONT_ADDR_START + sprite_char * 5
  .ok s

/-- Opcode Fx33 - LD B, Vx.  (Python's float `int((x/100) % 10)` agrees
with Nat arithmetic for the byte-sized register values that occur.) -/
def ld_i_bcd_of_reg : Handler := fun nibs s _env =>
  let second_nibble := s.v nibs.second_nibble
  let m1 := store s.memory s.i ((second_nibble / 100) % 10 &&& 0xFF)
  let m2 := store m1 (s.i + 1) ((second_nibble / 10) % 10 &&& 0xFF)
  let m3 := store m2 (s.i + 2) (second_nibble % 10 &&& 0xFF)
  .ok { s with memory := m3 }

/-- Opcode Fx55 - LD [I], Vx. -/
def store_regs_at_i : Handler := fun nibs s _env =>
  .ok { s with
    memory :=
      (List.range (nibs.second_nibble + 1)).foldl
        (fun m i => store m (s.i + i) (s.v i)) s.memory }

/-- Opcode Fx65 - LD Vx, [I]. -/
def ld_regs_at_i : Handler := fun nibs s _env =>
  .ok { s with
    v :=
      (List.range (nibs.second_nibble + 1)).foldl
        (fun v i => store v i (s.memory (s.i + i))) s.v }

/-! ## Dispatch tables and the execute cycle -/

/-- `opcode_0x0_last_byte_lookup`. -/
def opcode_0x0_last_byte_lookup (last_byte : Nat) : Option Handler :=
  if last_byte = 0xE0 then some clear_screen
  else if last_byte = 0xEE then some return_from_subrtn
  else none

/-- `opcode_0x8_fourth_nibble_lookup`. -/
def opcode_0x8_fourth_nibble_lookup (fourth_nibble : Nat) : Option Handler :=
  if fourth_nibble = 0x0 then some ld_reg_to_reg
  else if fourth_nibble = 0x1 then some or_regs
  else if fourth_nibble = 0x2 then some and_regs
  else if fourth_nibble = 0x3 then some xor_regs
  else if fourth_nibble = 0x4 then some add_regs
  else if fourth_nibble = 0x5 then some sub_regs
  else if fourth_nibble = 0x6 then some right_shift_reg
  else if fourth_nibble = 0x7 then some reverse_sub_regs
  else if fourth_nibble = 0xE then some left_shift_reg
  else none

/-- `opcode_0xE_last_byte_lookup`. -/
def opcode_0xE_last_byte_lookup (last_byte : Nat) : Option Handler :=
  if last_byte = 0x9E then some skip_on_keypress
  else if last_byte = 0xA1 then some skip_on_not_keypress
  else none

/-- `opcode_0xF_last_byte_lookup`. -/
def opcode_0xF_last_byte_lookup (last_byte : Nat) : Option Handler :=
  if last_byte = 0x07 then some ld_reg_with_dly_timer
  else if last_byte = 0x0A then some wait_for_input
  else if last_byte = 0x15 then some ld_delay_timer_with_reg
  else if last_byte = 0x18 then some ld_sound_timer_with_reg
  else if last_byte = 0x1E then some add_i_with_reg
  else if last_byte = 0x29 then some ld_i_font_sprite
  else if last_byte = 0x33 then some ld_i_bcd_of_reg
  else if last_byte = 0x55 then some store_regs_at_i
  else if last_byte = 0x65 then some ld_regs_at_i
  else none

/-- `lookup_opcode_0x0`: `validate_lookup` (raise `InvalidLookup` if the
key is absent, before anything mutates) then call the handler. -/
def lookup_opcode_0x0 : Handler := fun nibs s env =>
  (opcode_0x0_last_byte_lookup nibs.last_byte).elim
    (.err (.invalidLookup nibs.last_byte) s)
    (fun f => f nibs s env)

/-- `lookup_opcode_0x8` (keyed on the fourth nibble). -/
def lookup_opcode_0x8 : Handler := fun nibs s env =>
  (opcode_0x8_fourth_nibble_lookup nibs.fourth_nibble).elim
    (.err (.invalidLookup nibs.fourth_nibble) s)
    (fun f => f nibs s env)

/-- `lookup_opcode_0xE`. -/
def lookup_opcode_0xE : Handler := fun nibs s env =>
  (opcode_0xE_last_byte_lookup nibs.last_byte).elim
    (.err (.invalidLookup nibs.last_byte) s)
    (fun f => f nibs s env)

/-- `lookup_opcode_0xF`. -/
def lookup_opcode_0xF : Handler := fun nibs s env =>
  (opcode_0xF_last_byte_lookup nibs.last_byte).elim
    (.err (.invalidLookup nibs.last_byte) s)
    (fun f => f nibs s env)

/-- `opcode_first_nibble_lookup`, as built in `Chip8CPU.__init__`.
Note key `0xB` maps to `jump_addr`, not `jmp_reg0_with_byte`. -/
def opcode_first_nibble_lookup (first_nibble : Nat) : Option Handler :=
  if first_nibble = 0x0 then some lookup_opcode_0x0
  else if first_nibble = 0x1 then some jump_addr
  else if first_nibble = 0x2 then some call_addr
  else if first_nibble = 0x3 then some skip_reg_eq_byte
  else if first_nibble = 0x4 then some skip_reg_neq_byte
  else if first_nibble = 0x5 then some skip_reg_eq_reg
  else if first_nibble = 0x6 then some ld_to_reg
  else if first_nibble = 0x7 then some add_byte_to_reg
  else if first_nibble = 0x8 then some lookup_opcode_0x8
  else if first_nibble = 0x9 then some skip_reg_neq_reg
  else if first_nibble = 0xA then some ld_i
  else if first_nibble = 0xB then some jump_addr
  else if first_nibble = 0xC then some store_rnd_anded_byte_to_reg
  else if first_nibble = 0xD then some draw_bytes
  else if first_nibble = 0xE then some lookup_opcode_0xE
  else if first_nibble = 0xF then some lookup_opcode_0xF
  else none

/-- The unconditional `self.registers["pc"] += 2` at the end of
`execute_opcode`; a raised exception propagates past it. -/
def advance_pc : CpuResult → CpuResult
  | .ok s2 => .ok { s2 with pc := s2.pc + 2 }
  | .err e s2 => .err e s2

/-- `Chip8CPU.execute_opcode` on decoded nibbles: primary dispatch, run
the handler, then `pc += 2` (skipped if the handler raised). -/
def execute_nibbles (nibs : OpcodeNibbles) (s : Chip8State) (env : Env) :
    CpuResult :=
  (opcode_first_nibble_lookup nibs.first_nibble).elim
    (.err (.keyError nibs.first_nibble) s)
    (fun lookup_function => advance_pc (lookup_function nibs s env))

/-- `Chip8CPU.execute_opcode` on the two fetched bytes. -/
def execute_opcode (s : Chip8State) (env : Env) (b0 b1 : Nat) : CpuResult :=
  execute_nibbles (get_opcode_nibble_dict b0 b1) s env

/-- `Chip8CPU.fetch_opcode`: the two bytes at `pc`, `pc + 1`. -/
def fetch_opcode (s : Chip8State) : Nat × Nat :=
  (s.memory s.pc.toNat, s.memory (s.pc.toNat + 1))

/-- `Chip8CPU.emulate_cyle` (source spelling): fetch then execute. -/
def emulate_cyle (s : Chip8State) (env : Env) : CpuResult :=
  let opcode := fetch_opcode s
  execute_opcode s env opcode.1 opcode.2

/-! ## Memory loading (`load_memory` / `validate_data_size`) -/

/-- Result of `Chip8CPU.load_memory`: the memory after the copy, or the
memory at the moment `DataTooLarge` is raised (before any write). -/
inductive LoadResult where
  | ok (memory : Nat → Nat)
  | dataTooLarge (memory : Nat → Nat)

/-- `validate_data_size`'s raise condition:
`len(data) > MEMORY_SIZE - start_addr`. -/
def validate_data_size_fails (start_addr : Nat) (data : List Nat) : Bool :=
  decide (data.length > MEMORY_SIZE - start_addr)

/-- The copy loop of `load_memory`:
`for i in range(len(data)): memory[start_addr + i] = data[i]`. -/
def load_memory_loop (memory : Nat → Nat) (start_addr : Nat)
    (data : List Nat) : Nat → Nat :=
  (List.range data.length).foldl
    (fun m i => store m (start_addr + i) (data.getD i 0)) memory

/-- `Chip8CPU.load_memory`: validate first (raising `DataTooLarge` before
any byte is written), then copy. -/
def load_memory (memory : Nat → Nat) (start_addr : Nat) (data : List Nat) :
    LoadResult :=
  if validate_data_size_fails start_addr data then .dataTooLarge memory
  else .ok (load_memory_loop memory start_addr data)

/-! ## Debugger (`chip8/Chip8Debugger.py`) -/

/-- A Python value as stored in the debugger's `breakpoints` list or taken
from a split command line: an `int` or a `str`. -/
inductive PyVal where
  | int (n : Nat)
  | str (s : String)
deriving DecidableEq

/-- Python `==` between list elements: values of different types are never
equal (`"0x200" == 512` is `False`). -/
def py_eq : PyVal → PyVal → Bool
  | .int a, .int b => a == b
  | .str a, .str b => a == b
  | _, _ => false

/-- Python `x in xs`. -/
def py_mem (x : PyVal) (xs : List PyVal) : Bool :=
  xs.any (py_eq x)

/-- Python `xs.remove(x)`: drop the first matching element.  (Call sites
are guarded by a membership test, so the `ValueError` path is absent.) -/
def py_remove : List PyVal → PyVal → List PyVal
  | [], _ => []
  | e :: rest, x => if py_eq e x then rest else e :: py_remove rest x

/-- Value of a (lower-cased) hex digit, as accepted by `int(s, 16)`. -/
def hex_digit_value (c : Char) : Nat :=
  if 48 ≤ c.toNat ∧ c.toNat ≤ 57 then c.toNat - 48
  else if 97 ≤ c.toNat ∧ c.toNat ≤ 102 then c.toNat - 87
  else 0

/-- Python `int(s, 16)` on the lower-cased, whitespace-collapsed tokens
the debugger produces (an optional `0x` prefix then hex digits). -/
def int_base16 (s : String) : Nat :=
  let chars :=
    match s.toList with
    | '0' :: 'x' :: rest => rest
    | l => l
  chars.foldl (fun acc c => acc * 16 + hex_digit_value c) 0

/-- `Chip8Debugger.add_breakpoint`: append unless already present. -/
def add_breakpoint (breakpoints : List PyVal) (address : Nat) :
    List PyVal :=
  if py_mem (.int address) breakpoints then breakpoints
  else breakpoints ++ [.int address]

/-- Outcome of `Chip8Debugger.parse_input`: the new breakpoint list, the
new `halt` flag and the returned `should_continue`; or process exit. -/
inductive ParseOutcome where
  | cont (breakpoints : List PyVal) (halt : Bool) (should_continue : Bool)
  | exited
deriving DecidableEq

/-- `Chip8Debugger.parse_input` on an already-split command line.  The
`"d"` branch tests `command_array[1] in self.breakpoints` — the raw
*string* token against the stored *ints* — and only then removes
`int(command_array[1], 16) & 0xFFFF`. -/
def parse_input (breakpoints : List PyVal) (halt : Bool)
    (command_array : List String) : ParseOutcome :=
  let verb := command_array.headD ""
  let arg := (command_array.drop 1).headD ""
  if verb = "b" then
    .cont (add_breakpoint breakpoints (int_base16 arg &&& 0xFFFF)) halt false
  else if verb = "d" then
    .cont
      (if py_mem (.str arg) breakpoints then
        py_remove breakpoints (.int (int_base16 arg &&& 0xFFFF))
      else breakpoints)
      halt false
  else if verb = "s" ∨ verb = "n" then .cont breakpoints true true
  else if verb = "p" then .cont breakpoints halt false
  else if verb = "c" then .cont breakpoints halt true
  else if verb = "q" then .exited
  else .cont breakpoints halt true

/-- `Chip8Debugger.is_addr_breakpoint`. -/
def is_addr_breakpoint (breakpoints : List PyVal) (address : Nat) : Bool :=
  py_mem (.int address) breakpoints

/-! ## Concrete states for evaluation -/

/-- The display as created by `create_display`: 64 × 32, scale 10, all
pixels `BG_COLOR`. -/
def init_display : Chip8Display :=
  { width := DISPLAY_WIDTH, height := DISPLAY_HEIGHT, scale := 10
    surface := fun _ _ => false }

/-- A baseline machine state: zero memory and registers, `pc = 0x200`,
blank display. -/
def zero_state : Chip8State :=
  { memory := fun _ => 0
    v := fun _ => 0
    i := 0
    sp := 0
    pc := (START_ADDR : Int)
    stack := fun _ => 0
    delay := 0
    sound := 0
    display := init_display }

/-- An environment with no pending input. -/
def env0 : Env :=
  { rand := 0, keysPressed := fun _ => false, events := [] }

/-! ## Claim-specific predicates and concrete inputs -/

/-- The decoded opcode needs a secondary dispatch and the secondary table
has no entry for its key (last byte, or fourth nibble for `0x8`). -/
def secondary_lookup_misses (nibs : OpcodeNibbles) : Prop :=
  (nibs.first_nibble = 0x0 ∧
    opcode_0x0_last_byte_lookup nibs.last_byte = none) ∨
  (nibs.first_nibble = 0x8 ∧
    opcode_0x8_fourth_nibble_lookup nibs.fourth_nibble = none) ∨
  (nibs.first_nibble = 0xE ∧
    opcode_0xE_last_byte_lookup nibs.last_byte = none) ∨
  (nibs.first_nibble = 0xF ∧
    opcode_0xF_last_byte_lookup nibs.last_byte = none)

/-- The key used for the secondary dispatch. -/
def secondary_key (nibs : OpcodeNibbles) : Nat :=
  if nibs.first_nibble = 0x8 then nibs.fourth_nibble else nibs.last_byte

/-- Blank framebuffer, `V2 = width − 4 = 60`, `V3 = 0`, one all-bits-set
sprite row at `I = 0x300` — the spec's horizontal-wraparound scenario,
to be drawn by opcode `D231`. -/
def c1_state : Chip8State :=
  { zero_state with
      v := store (store (fun _ => 0) 0x2 60) 0x3 0
      i := 0x300
      memory := store (fun _ => 0) 0x300 0xFF }

/-- The machine state after executing `D231` on `c1_state`. -/
def c1_result : Chip8State :=
  result_state (execute_opcode c1_state env0 0xD2 0x31)

/-- `V0 = 0x0F` and opcode `B300` in memory at `pc = 0x200`. -/
def c2_state : Chip8State :=
  { zero_state with
      memory := store (store (fun _ => 0) 0x200 0xB3) 0x201 0x00
      v := store (fun _ => 0) 0x0 0x0F }

/-- `V1 = V2 = 0x23`, for the subtract boundary case `8125`. -/
def c3_state : Chip8State :=
  { zero_state with v := store (store (fun _ => 0) 0x1 0x23) 0x2 0x23 }

/-- `V7 = 7` and `I = 0x123`, for the font-sprite opcode `F729`. -/
def c4_state : Chip8State :=
  { zero_state with v := store (fun _ => 0) 0x7 7, i := 0x123 }

/-- An event queue holding one key-down for pygame key `K_x = 120`
(the host key mapped to logical CHIP-8 key `0x0`). -/
def c5_env : Env :=
  { rand := 0, keysPressed := fun _ => false, events := [.keydown 120] }

/-! ## Helper lemmas -/

lemma advance_pc_invalid (r : CpuResult) (k : Nat) (s2 : Chip8State)
    (h : advance_pc r = .err (.invalidLookup k) s2) :
    r = .err (.invalidLookup k) s2 := by
  cases r with
  | ok s3 => simp [advance_pc] at h
  | err e s3 => exact h

lemma lookup_at_0x0 : opcode_first_nibble_lookup 0x0 = some lookup_opcode_0x0 := rfl

lemma lookup_at_0x8 : opcode_first_nibble_lookup 0x8 = some lookup_opcode_0x8 := rfl

lemma lookup_at_0xE : opcode_first_nibble_lookup 0xE = some lookup_opcode_0xE := rfl

lemma lookup_at_0xF : opcode_first_nibble_lookup 0xF = some lookup_opcode_0xF := rfl

lemma execute_nibbles_secondary_miss (nibs : OpcodeNibbles) (s : Chip8State)
    (env : Env) (h : secondary_lookup_misses nibs) :
    execute_nibbles nibs s env = .err (.invalidLookup (secondary_key nibs)) s := by
  rcases h with ⟨h1, h2⟩ | ⟨h1, h2⟩ | ⟨h1, h2⟩ | ⟨h1, h2⟩
  · rw [execute_nibbles, h1, lookup_at_0x0, Option.elim_some,
      lookup_opcode_0x0, h2, Option.elim_none, advance_pc,
      secondary_key, h1]
    norm_num
  · rw [execute_nibbles, h1, lookup_at_0x8, Option.elim_some,
      lookup_opcode_0x8, h2, Option.elim_none, advance_pc,
      secondary_key, h1]
    norm_num
  · rw [execute_nibbles, h1, lookup_at_0xE, Option.elim_some,
      lookup_opcode_0xE, h2, Option.elim_none, advance_pc,
      secondary_key, h1]
    norm_num
  · rw [execute_nibbles, h1, lookup_at_0xF, Option.elim_some,
      lookup_opcode_0xF, h2, Option.elim_none, advance_pc,
      secondary_key, h1]
    norm_num

lemma jump_addr_no_invalid (nibs : OpcodeNibbles) (s : Chip8State) (env : Env)
    (k : Nat) (s2 : Chip8State) :
    jump_addr nibs s env ≠ .err (.invalidLookup k) s2 := by
  intro h; simp [jump_addr] at h

lemma call_addr_no_invalid (nibs : OpcodeNibbles) (s : Chip8State) (env : Env)
    (k : Nat) (s2 : Chip8State) :
    call_addr nibs s env ≠ .err (.invalidLookup k) s2 := by
  intro h; simp [call_addr] at h

lemma skip_reg_eq_byte_no_invalid (nibs : OpcodeNibbles) (s : Chip8State)
    (env : Env) (k : Nat) (s2 : Chip8State) :
    skip_reg_eq_byte nibs s env ≠ .err (.invalidLookup k) s2 := by
  intro h; unfold skip_reg_eq_byte at h; split_ifs at h

lemma skip_reg_neq_byte_no_invalid (nibs : OpcodeNibbles) (s : Chip8State)
    (env : Env) (k : Nat) (s2 : Chip8State) :
    skip_reg_neq_byte nibs s env ≠ .err (.invalidLookup k) s2 := by
  intro h; unfold skip_reg_neq_byte at h; split_ifs at h

lemma skip_reg_eq_reg_no_invalid (nibs : OpcodeNibbles) (s : Chip8State)
    (env : Env) (k : Nat) (s2 : Chip8State) :
    skip_reg_eq_reg nibs s env ≠ .err (.invalidLookup k) s2 := by
  intro h; unfold skip_reg_eq_reg at h; split_ifs at h

lemma ld_to_reg_no_invalid (nibs : OpcodeNibbles) (s : Chip8State) (env : Env)
    (k : Nat) (s2 : Chip8State) :
    ld_to_reg nibs s env ≠ .err (.invalidLookup k) s2 := by
  intro h; simp [ld_to_reg] at h

lemma add_byte_to_reg_no_invalid (nibs : OpcodeNibbles) (s : Chip8State)
    (env : Env) (k : Nat) (s2 : Chip8State) :
    add_byte_to_reg nibs s env ≠ .err (.invalidLookup k) s2 := by
  intro h; simp [add_byte_to_reg] at h

lemma skip_reg_neq_reg_no_invalid (nibs : OpcodeNibbles) (s : Chip8State)
    (env : Env) (k : Nat) (s2 : Chip8State) :
    skip_reg_neq_reg nibs s env ≠ .err (.invalidLookup k) s2 := by
  intro h; unfold skip_reg_neq_reg at h; split_ifs at h

lemma ld_i_no_invalid (nibs : OpcodeNibbles) (s : Chip8State) (env : Env)
    (k : Nat) (s2 : Chip8State) :
    ld_i nibs s env ≠ .err (.invalidLookup k) s2 := by
  intro h; simp [ld_i] at h

lemma store_rnd_no_invalid (nibs : OpcodeNibbles) (s : Chip8State) (env : Env)
    (k : Nat) (s2 : Chip8State) :
    store_rnd_anded_byte_to_reg nibs s env ≠ .err (.invalidLookup k) s2 := by
  intro h; simp [store_rnd_anded_byte_to_reg] at h

lemma draw_bytes_no_invalid (nibs : OpcodeNibbles) (s : Chip8State) (env : Env)
    (k : Nat) (s2 : Chip8State) :
    draw_bytes nibs s env ≠ .err (.invalidLookup k) s2 := by
  intro h; simp [draw_bytes] at h

lemma lookup_at_0x1 : opcode_first_nibble_lookup 0x1 = some jump_addr := rfl

lemma lookup_at_0x2 : opcode_first_nibble_lookup 0x2 = some call_addr := rfl

lemma lookup_at_0x3 : opcode_first_nibble_lookup 0x3 = some skip_reg_eq_byte := rfl

lemma lookup_at_0x4 : opcode_first_nibble_lookup 0x4 = some skip_reg_neq_byte := rfl

lemma lookup_at_0x5 : opcode_first_nibble_lookup 0x5 = some skip_reg_eq_reg := rfl

lemma lookup_at_0x6 : opcode_first_nibble_lookup 0x6 = some ld_to_reg := rfl

lemma lookup_at_0x7 : opcode_first_nibble_lookup 0x7 = some add_byte_to_reg := rfl

lemma lookup_at_0x9 : opcode_first_nibble_lookup 0x9 = some skip_reg_neq_reg := rfl

lemma lookup_at_0xA : opcode_first_nibble_lookup 0xA = some ld_i := rfl

lemma lookup_at_0xB : opcode_first_nibble_lookup 0xB = some jump_addr := rfl

lemma lookup_at_0xC : opcode_first_nibble_lookup 0xC = some store_rnd_anded_byte_to_reg := rfl

lemma lookup_at_0xD : opcode_first_nibble_lookup 0xD = some draw_bytes := rfl

lemma lookup_none_of_ge (n : Nat) (hge : 16 ≤ n) :
    opcode_first_nibble_lookup n = none := by
  unfold opcode_first_nibble_lookup
  repeat rw [if_neg (by omega)]

lemma handler_dispatch_no_invalid (n : Nat)
    (hn : ¬(n = 0x0 ∨ n = 0x8 ∨ n = 0xE ∨ n = 0xF)) (f : Handler)
    (hl : opcode_first_nibble_lookup n = some f) (nibs : OpcodeNibbles)
    (s : Chip8State) (env : Env) (k : Nat) (s2 : Chip8State) :
    f nibs s env ≠ .err (.invalidLookup k) s2 := by
  rcases Nat.lt_or_ge n 16 with hlt | hge
  · interval_cases n
    · exact absurd (Or.inl rfl) hn
    · rw [Option.some.inj (hl.symm.trans lookup_at_0x1)]
      exact jump_addr_no_invalid nibs s env k s2
    · rw [Option.some.inj (hl.symm.trans lookup_at_0x2)]
      exact call_addr_no_invalid nibs s env k s2
    · rw [Option.some.inj (hl.symm.trans lookup_at_0x3)]
      exact skip_reg_eq_byte_no_invalid nibs s env k s2
    · rw [Option.some.inj (hl.symm.trans lookup_at_0x4)]
      exact skip_reg_neq_byte_no_invalid nibs s env k s2
    · rw [Option.some.inj (hl.symm.trans lookup_at_0x5)]
      exact skip_reg_eq_reg_no_invalid nibs s env k s2
    · rw [Option.some.inj (hl.symm.trans lookup_at_0x6)]
      exact ld_to_reg_no_invalid nibs s env k s2
    · rw [Option.some.inj (hl.symm.trans lookup_at_0x7)]
      exact add_byte_to_reg_no_invalid nibs s env k s2
    · exact absurd (Or.inr (Or.inl rfl)) hn
    · rw [Option.some.inj (hl.symm.trans lookup_at_0x9)]
      exact skip_reg_neq_reg_no_invalid nibs s env k s2
    · rw [Option.some.inj (hl.symm.trans lookup_at_0xA)]
      exact ld_i_no_invalid nibs s env k s2
    · rw [Option.some.inj (hl.symm.trans lookup_at_0xB)]
      exact jump_addr_no_invalid nibs s env k s2
    · rw [Option.some.inj (hl.symm.trans lookup_at_0xC)]
      exact store_rnd_no_invalid nibs s env k s2
    · rw [Option.some.inj (hl.symm.trans lookup_at_0xD)]
      exact draw_bytes_no_invalid nibs s env k s2
    · exact absurd (Or.inr (Or.inr (Or.inl rfl))) hn
    · exact absurd (Or.inr (Or.inr (Or.inr rfl))) hn
  · rw [lookup_none_of_ge n hge] at hl
    exact Option.noConfusion hl

lemma execute_nibbles_invalid_only_secondary (nibs : OpcodeNibbles)
    (s : Chip8State) (env : Env) (k : Nat) (s2 : Chip8State)
    (h : execute_nibbles nibs s env = .err (.invalidLookup k) s2) :
    nibs.first_nibble = 0x0 ∨ nibs.first_nibble = 0x8 ∨
      nibs.first_nibble = 0xE ∨ nibs.first_nibble = 0xF := by
  by_cases hdis : nibs.first_nibble = 0x0 ∨ nibs.first_nibble = 0x8 ∨
      nibs.first_nibble = 0xE ∨ nibs.first_nibble = 0xF
  · exact hdis
  · exfalso
    rw [execute_nibbles] at h
    rcases hl : opcode_first_nibble_lookup nibs.first_nibble with _ | f
    · rw [hl, Option.elim_none] at h
      exact absurd h (by simp)
    · rw [hl, Option.elim_some] at h
      exact handler_dispatch_no_invalid nibs.first_nibble hdis f hl
        nibs s env k s2 (advance_pc_invalid _ _ _ h)

lemma first_nibble_le (b0 b1 : Nat) :
    (get_opcode_nibble_dict b0 b1).first_nibble ≤ 15 := by
  show ((b0 <<< 8 ||| b1) &&& 0xFFFF &&& 0xF000) >>> 12 ≤ 15
  have h1 : (b0 <<< 8 ||| b1) &&& 0xFFFF &&& 0xF000 ≤ 0xF000 := Nat.and_le_right
  have h2 : ((b0 <<< 8 ||| b1) &&& 0xFFFF &&& 0xF000) >>> 12
      = ((b0 <<< 8 ||| b1) &&& 0xFFFF &&& 0xF000) / 4096 := by
    simp [Nat.shiftRight_eq_div_pow]
  rw [h2]
  calc ((b0 <<< 8 ||| b1) &&& 0xFFFF &&& 0xF000) / 4096
      ≤ 0xF000 / 4096 := Nat.div_le_div_right h1
    _ = 15 := by norm_num

/-- C6: for every opcode whose first nibble is 0x0, 0x8, 0xE or 0xF and
whose secondary key (last byte, or fourth nibble for 0x8) has no
registered handler, one execute cycle raises `InvalidLookup` at dispatch
time, before any handler runs, and the returned error state is exactly
the input state: PC, registers, stack, timers, memory and framebuffer
are unchanged. -/
theorem c6_unknown_secondary_key_fails_without_state_change
    (s : Chip8State) (env : Env) (b0 b1 : Nat)
    (h : secondary_lookup_misses (get_opcode_nibble_dict b0 b1)) :
    execute_opcode s env b0 b1 =
      .err (.invalidLookup (secondary_key (get_opcode_nibble_dict b0 b1))) s :=
  execute_nibbles_secondary_miss (get_opcode_nibble_dict b0 b1) s env h

/-- C6 witness: opcode `8129` (fourth nibble 9 unregistered) on the
baseline state errors with `InvalidLookup 9` and an unchanged state. -/
theorem c6_unknown_secondary_key_fails_without_state_change_witness :
    secondary_lookup_misses (get_opcode_nibble_dict 0x81 0x29) ∧
    execute_opcode zero_state env0 0x81 0x29 =
      .err (.invalidLookup 9) zero_state :=
  ⟨Or.inr (Or.inl ⟨rfl, rfl⟩),
    c6_unknown_secondary_key_fails_without_state_change zero_state env0 0x81 0x29
      (Or.inr (Or.inl ⟨rfl, rfl⟩))⟩

/-- C10: the first-nibble dispatch table contains all 16 nibble keys, so
the primary lookup in the execute cycle always finds a handler (for every
pair of fetched bytes), and a decode failure (`InvalidLookup`) can arise
only when the first nibble is 0x0, 0x8, 0xE or 0xF — i.e. only from the
secondary lookup tables. -/
theorem c10_primary_dispatch_total :
    (∀ n, n ≤ 0xF → (opcode_first_nibble_lookup n).isSome = true) ∧
    (∀ b0 b1,
      (opcode_first_nibble_lookup
        (get_opcode_nibble_dict b0 b1).first_nibble).isSome = true) ∧
    (∀ (s : Chip8State) (env : Env) (b0 b1 k : Nat) (s2 : Chip8State),
      execute_opcode s env b0 b1 = .err (.invalidLookup k) s2 →
      (get_opcode_nibble_dict b0 b1).first_nibble = 0x0 ∨
        (get_opcode_nibble_dict b0 b1).first_nibble = 0x8 ∨
        (get_opcode_nibble_dict b0 b1).first_nibble = 0xE ∨
        (get_opcode_nibble_dict b0 b1).first_nibble = 0xF) := by
  refine ⟨by decide, fun b0 b1 => ?_, fun s env b0 b1 k s2 h => ?_⟩
  · exact (by decide : ∀ n, n ≤ 0xF → (opcode_first_nibble_lookup n).isSome = true)
      _ (first_nibble_le b0 b1)
  · exact execute_nibbles_invalid_only_secondary _ s env k s2 h

/-- C10 witness: the table is populated at key 0xB, the primary lookup
succeeds for opcode `D231`, and the decode failure of opcode `00FF`
indeed has first nibble in the secondary-dispatch set. -/
theorem c10_primary_dispatch_total_witness :
    (opcode_first_nibble_lookup 0xB).isSome = true ∧
    (opcode_first_nibble_lookup
      (get_opcode_nibble_dict 0xD2 0x31).first_nibble).isSome = true ∧
    ((get_opcode_nibble_dict 0x00 0xFF).first_nibble = 0x0 ∨
      (get_opcode_nibble_dict 0x00 0xFF).first_nibble = 0x8 ∨
      (get_opcode_nibble_dict 0x00 0xFF).first_nibble = 0xE ∨
      (get_opcode_nibble_dict 0x00 0xFF).first_nibble = 0xF) :=
  ⟨c10_primary_dispatch_total.1 0xB (by norm_num),
    c10_primary_dispatch_total.2.1 0xD2 0x31,
    c10_primary_dispatch_total.2.2 zero_state env0 0x00 0xFF 0xFF zero_state rfl⟩

lemma load_memory_loop_aux (data : List Nat) (start_addr : Nat) :
    ∀ (n : Nat) (memory : Nat → Nat) (k : Nat), k < n →
      ((List.range n).foldl
          (fun m i => store m (start_addr + i) (data.getD i 0)) memory)
        (start_addr + k) = data.getD k 0 := by
  intro n
  induction n with
  | zero => intro memory k hk; omega
  | succ n ih =>
    intro memory k hk
    rw [List.range_succ, List.foldl_append, List.foldl_cons, List.foldl_nil]
    by_cases hkn : k = n
    · subst hkn; simp [store]
    · have hlt : k < n := by omega
      have hne : ¬ (start_addr + k = start_addr + n) := by omega
      simp only [store, hne, if_false]
      exact ih memory k hlt

/-- C7: loading a data blob at 0x200 raises `DataTooLarge` before any
byte is written (memory unchanged) when its length exceeds
`4096 - 0x200`, and otherwise copies every byte byte-for-byte into
memory starting at 0x200. -/
theorem c7_load_memory_bounds_and_copy (memory : Nat → Nat) (data : List Nat) :
    (data.length > MEMORY_SIZE - START_ADDR →
      load_memory memory START_ADDR data = .dataTooLarge memory) ∧
    (data.length ≤ MEMORY_SIZE - START_ADDR →
      ∃ m2, load_memory memory START_ADDR data = .ok m2 ∧
        ∀ k, k < data.length → m2 (START_ADDR + k) = data.getD k 0) := by
  constructor
  · intro h
    rw [load_memory, if_pos]
    simpa [validate_data_size_fails] using h
  · intro h
    refine ⟨load_memory_loop memory START_ADDR data, ?_, ?_⟩
    · rw [load_memory, if_neg]
      simp only [validate_data_size_fails, decide_eq_true_eq]
      omega
    · intro k hk
      exact load_memory_loop_aux data START_ADDR data.length memory k hk

/-- C7 witness: a 3585-byte blob is rejected with memory untouched, and
a 2-byte blob is copied byte-for-byte at 0x200. -/
theorem c7_load_memory_bounds_and_copy_witness :
    load_memory (fun _ => 0) START_ADDR (List.replicate 3585 0)
      = .dataTooLarge (fun _ => 0) ∧
    (∃ m2, load_memory (fun _ => 0) START_ADDR [0xAB, 0xCD] = .ok m2 ∧
      ∀ k, k < ([0xAB, 0xCD] : List Nat).length →
        m2 (START_ADDR + k) = ([0xAB, 0xCD] : List Nat).getD k 0) :=
  ⟨(c7_load_memory_bounds_and_copy (fun _ => 0) (List.replicate 3585 0)).1
      (by rw [List.length_replicate]; norm_num [MEMORY_SIZE, START_ADDR]),
    (c7_load_memory_bounds_and_copy (fun _ => 0) [0xAB, 0xCD]).2
      (by norm_num [MEMORY_SIZE, START_ADDR])⟩

lemma lookup_0x0_at_0xEE :
    opcode_0x0_last_byte_lookup (get_opcode_nibble_dict 0x00 0xEE).last_byte
      = some return_from_subrtn := rfl

/-- C8 (amended): executing a call opcode 2nnn in one cycle when
PC = 0x200 leaves the stack top equal to 0x200, SP incremented by exactly
1, and PC = nnn; a subsequently executed return opcode 00EE pops 0x200
into PC and the uniform end-of-cycle advance then leaves PC = 0x202 (the
instruction after the call site), restores SP to its prior value, and
zeroes the consumed stack slot. -/
theorem c8_call_return_discipline (s : Chip8State) (env env2 : Env)
    (b0 b1 : Nat) (hpc : s.pc = 0x200)
    (hfn : (get_opcode_nibble_dict b0 b1).first_nibble = 0x2) :
    ∃ t u,
      execute_opcode s env b0 b1 = .ok t ∧
      t.sp = s.sp + 1 ∧
      t.stack t.sp = 0x200 ∧
      t.pc = ((get_opcode_nibble_dict b0 b1).last_three_bits : Int) ∧
      execute_opcode t env2 0x00 0xEE = .ok u ∧
      u.pc = 0x202 ∧
      u.sp = s.sp ∧
      u.stack (s.sp + 1) = 0 := by
  have h1 : execute_opcode s env b0 b1
      = .ok { s with
                sp := s.sp + 1
                stack := store s.stack (s.sp + 1) s.pc
                pc := ((get_opcode_nibble_dict b0 b1).last_three_bits : Int) } := by
    rw [execute_opcode, execute_nibbles, hfn, lookup_at_0x2, Option.elim_some]
    simp [call_addr, advance_pc]
  set t : Chip8State :=
    { s with
        sp := s.sp + 1
        stack := store s.stack (s.sp + 1) s.pc
        pc := ((get_opcode_nibble_dict b0 b1).last_three_bits : Int) } with ht
  have h2 : execute_opcode t env2 0x00 0xEE
      = .ok { t with
                pc := t.stack t.sp + 2
                stack := store t.stack t.sp 0
                sp := t.sp - 1 } := by
    rw [execute_opcode, execute_nibbles,
      show (get_opcode_nibble_dict 0x00 0xEE).first_nibble = 0x0 from rfl,
      lookup_at_0x0, Option.elim_some]
    show advance_pc (lookup_opcode_0x0 (get_opcode_nibble_dict 0x00 0xEE) t env2) = _
    rw [lookup_opcode_0x0, lookup_0x0_at_0xEE, Option.elim_some]
    simp [return_from_subrtn, advance_pc]
  refine ⟨t, _, h1, rfl, ?_, rfl, h2, ?_, ?_, ?_⟩
  · show store s.stack (s.sp + 1) s.pc (s.sp + 1) = 0x200
    simp [store, hpc]
  · show t.stack t.sp + 2 = 0x202
    show store s.stack (s.sp + 1) s.pc (s.sp + 1) + 2 = 0x202
    simp [store, hpc]
  · show t.sp - 1 = s.sp
    simp
  · show store t.stack t.sp 0 (s.sp + 1) = 0
    show store (store s.stack (s.sp + 1) s.pc) (s.sp + 1) 0 (s.sp + 1) = 0
    simp [store]

/-- C1: evaluating the draw opcode `D231` on the spec's wraparound
scenario (blank framebuffer, one all-bits-set row at x = width − 4 = 60):
the claim demands all 8 pixels at columns 60..63 and 0..3 set with
VF = 0, but the code sets VF = 1 and leaves columns 1..3 dark, because
`is_drawn_pixel_present` reads the ×10-scaled surface at unscaled
coordinates (surface pixels (1..3, 0) lie inside the freshly drawn
rectangle of cell (0, 0)). -/
theorem c1_draw_wraparound_collision_misread :
    c1_result.v 0xF = 1 ∧
    c1_result.display.surface 600 0 = true ∧
    c1_result.display.surface 610 0 = true ∧
    c1_result.display.surface 620 0 = true ∧
    c1_result.display.surface 630 0 = true ∧
    c1_result.display.surface 0 0 = true ∧
    c1_result.display.surface 10 0 = false ∧
    c1_result.display.surface 20 0 = false ∧
    c1_result.display.surface 30 0 = false ∧
    (1 : Nat) ≠ 0 := by
  refine ⟨by decide, by decide, by decide, by decide, by decide,
    by decide, by decide, by decide, by decide, by decide⟩

/-- C2: executing one fetch-decode-execute cycle on opcode `B300` with
V0 = 0x0F leaves PC = 0x300, not (0x300 + 0x0F) mod 65536 = 0x30F as the
claim demands: the dispatch table wires first nibble 0xB to `jump_addr`,
so V0 is ignored (`jmp_reg0_with_byte` is never dispatched). -/
theorem c2_jump_with_offset_ignores_v0 :
    (result_state (emulate_cyle c2_state env0)).pc = 0x300 ∧
    c2_state.v 0x0 = 0x0F ∧
    ((0x300 + 0x0F) % 65536 : Int) = 0x30F ∧
    ((0x30F : Int) ≠ 0x300) := by
  refine ⟨by decide, by decide, by decide, by decide⟩

/-- C3: the subtract opcode `8125` with V1 = V2 = 0x23 (the boundary
case Vx = Vy) stores result 0 but sets VF = 0, not VF = 1 as the claim
(and the method's own no-borrow docstring) demands, because `sub_regs`
flags a borrow unless Vx > Vy strictly. -/
theorem c3_subtract_equal_regs_clears_vf :
    (result_state (execute_opcode c3_state env0 0x81 0x25)).v 0xF = 0 ∧
    (result_state (execute_opcode c3_state env0 0x81 0x25)).v 0x1 = 0 ∧
    ((0 : Nat) ≠ 1) := by
  refine ⟨by decide, by decide, by decide⟩

/-- C4: executing the font-sprite opcode `F729` with V7 = 7 leaves
I = 0x123 unchanged instead of storing
`FONT_ADDR_START + 5 × V7 = 35`: the handler computes the address into a
local and discards it, so there is no visible side effect. -/
theorem c4_font_sprite_address_discarded :
    (result_state (execute_opcode c4_state env0 0xF7 0x29)).i = 0x123 ∧
    FONT_ADDR_START + c4_state.v 0x7 * 5 = 35 ∧
    ((0x123 : Nat) ≠ 35) := by
  refine ⟨by decide, by decide, by decide⟩

/-- C5: the wait-for-key opcode `F10A`, completing on a key-down event
for pygame key 120 (`K_x`, the host key mapped to logical CHIP-8 key
0x0), stores 120 — the host/backend key code, which is not a logical key
index in 0..15 — into V1, contradicting the claim that the logical index
is stored. -/
theorem c5_wait_for_key_stores_host_keycode :
    (result_state (execute_opcode zero_state c5_env 0xF1 0x0A)).v 0x1 = 120 ∧
    KEY_MAPPINGS 0x0 = some 120 ∧
    ¬ (120 : Nat) < 16 := by
  refine ⟨by decide, by decide, by decide⟩

/-- C8 counterexample: from PC = 0x200, executing call `2300` and then
return `00EE` as full cycles leaves PC = 0x202, not 0x200 as the claim
states (the return handler restores 0x200 and the uniform end-of-cycle
advance then adds 2). -/
theorem c8_return_cycle_advances_past_call_site :
    (result_state (execute_opcode
        (result_state (execute_opcode zero_state env0 0x23 0x00))
        env0 0x00 0xEE)).pc = 0x202 ∧
    ((0x202 : Int) ≠ 0x200) := by
  refine ⟨by decide, by decide⟩

/-- C8 witness: the amended call/return discipline instantiated at the
baseline state with call target 0x300. -/
theorem c8_call_return_discipline_witness :
    ∃ t u,
      execute_opcode zero_state env0 0x23 0x00 = .ok t ∧
      t.sp = zero_state.sp + 1 ∧
      t.stack t.sp = 0x200 ∧
      t.pc = ((get_opcode_nibble_dict 0x23 0x00).last_three_bits : Int) ∧
      execute_opcode t env0 0x00 0xEE = .ok u ∧
      u.pc = 0x202 ∧
      u.sp = zero_state.sp ∧
      u.stack (zero_state.sp + 1) = 0 :=
  c8_call_return_discipline zero_state env0 env0 0x23 0x00 rfl rfl

/-- C9: with 0x200 in the breakpoint set, the debugger command
`d 0x200` leaves the set unchanged and a subsequent membership test for
0x200 still returns true: `parse_input` compares the raw string token
against the stored integers, which never match, so the removal never
runs. -/
theorem c9_delete_breakpoint_never_removes :
    parse_input [PyVal.int 0x200] false ["d", "0x200"]
      = .cont [PyVal.int 0x200] false false ∧
    is_addr_breakpoint [PyVal.int 0x200] 0x200 = true := by
  refine ⟨by decide, by decide⟩
